import Mathlib

/-!
Shallow embedding of the lazy-mut crate (src/lib.rs, src/poison.rs, src/std_lock.rs).

Panics are modelled with the error monad: a Rust function that may panic becomes a
Lean function returning `Except String α`, where `Except.error msg` is a panic whose
payload is `msg`.  A Rust `FnOnce() -> T` initializer that may panic becomes
`Unit → Except String T`.  Sequential semantics: each operation is a function from
the cell state (and the ambient `std::thread::panicking()` boolean, passed
explicitly) to the new cell state and a result.

On top of the functional layer there is a small trace layer (`Event`, `forceMutTrace`,
`guardDropTrace`) recording, in source order, the adapter-lock and poison-flag events
each operation performs; it is used for the claims about lock acquisition and release
ordering.
-/

/-- Panic payloads are strings. -/
abbrev Panic := String

/-- A Rust `FnOnce() -> T` initializer; `Except.error` models a panic mid-run. -/
abbrev Initializer (T : Type) := Unit → Except Panic T

/-- `enum InitState<T, F> { Uninit(F), Init(T), Poisoned }` from src/lib.rs. -/
inductive InitState (T F : Type) where
  | Uninit (f : F)
  | Init (data : T)
  | Poisoned

/-- `std::sync::PoisonError` still hands out the wrapped value, so
`PoisonLockResult<G> = Result<G, PoisonError<G>>` from src/poison.rs is a sum of two
copies of the payload: `ok` for `Ok(g)` and `err` for `Err(PoisonError(g))`. -/
inductive PoisonLockResult (α : Type) where
  | ok (value : α)
  | err (value : α)
deriving DecidableEq

/-- `poison::map_result` from src/poison.rs: maps over both the `Ok` payload and the
payload recovered from the `PoisonError` via `into_inner`. -/
def map_result {α β : Type} (result : PoisonLockResult α) (f : α → β) : PoisonLockResult β :=
  match result with
  | .ok x => .ok (f x)
  | .err x => .err (f x)

/-- `poison::Guard` from src/poison.rs (configuration with feature std_lock and
panic=unwind): records whether the thread was panicking when the token was taken. -/
structure poison.Guard where
  panicking : Bool
deriving DecidableEq

/-- `poison::Flag` from src/poison.rs (configuration with feature std_lock and
panic=unwind): the `failed` atomic boolean. -/
structure poison.Flag where
  failed : Bool
deriving DecidableEq

/-- `Flag::new`. -/
def poison.Flag.new : poison.Flag := ⟨false⟩

/-- `Flag::get`: loads the `failed` atomic. -/
def poison.Flag.get (fl : poison.Flag) : Bool := fl.failed

/-- `Flag::guard`: builds a token capturing `thread::panicking()` (the `panicking`
argument here), then returns it as `Ok` when the flag is unset and as a
`PoisonError` still containing the token when it is set. -/
def poison.Flag.guard (fl : poison.Flag) (panicking : Bool) : PoisonLockResult poison.Guard :=
  let ret : poison.Guard := ⟨panicking⟩
  if fl.get then .err ret else .ok ret

/-- `Flag::done`: stores `true` into `failed` when the thread is panicking now but
was not panicking when the token was taken; otherwise leaves the flag alone. -/
def poison.Flag.done (fl : poison.Flag) (g : poison.Guard) (nowPanicking : Bool) : poison.Flag :=
  if !g.panicking && nowPanicking then ⟨true⟩ else fl

/-- `Flag::clear`: stores `false` into `failed`. -/
def poison.Flag.clear (_fl : poison.Flag) : poison.Flag := ⟨false⟩

/-- The cell `LazyMut<T, F, M>` from src/lib.rs: a mutex-protected `InitState` plus a
poison flag.  The adapter mutex itself carries no data; its acquire and release
appear in the trace layer below. -/
structure LazyMut (T : Type) where
  state : InitState T (Initializer T)
  poison_flag : poison.Flag

/-- `LazyMut::new`: stores the initializer, fresh flag. -/
def LazyMut.new {T : Type} (f : Initializer T) : LazyMut T :=
  { state := .Uninit f, poison_flag := poison.Flag.new }

/-- The data actually stored in a `LazyMutGuard` besides the borrow of the cell:
the poison token taken at construction. -/
structure LazyMutGuard where
  poison_guard : poison.Guard
deriving DecidableEq

/-- Panic message of `lazy_mut_poisoned_init` in src/lib.rs. -/
def lazy_mut_poisoned_init_msg : Panic :=
  "LazyMut instance has been poisoned during initialization"

/-- Intermediate state written by the first sub-step of `LazyMut::really_init`:
`core::mem::replace(state, InitState::Poisoned)` removes the initializer and leaves
`Poisoned` in place. -/
def really_init_mid (T : Type) : InitState T (Initializer T) := .Poisoned

/-- `LazyMut::really_init` from src/lib.rs, precondition state `Uninit(f)`.
Sub-step one replaces the state with `Poisoned`, extracting `f`; then `f` runs; only
when it returns normally does sub-step two overwrite the state with `Init(data)`
(`core::ptr::write`).  Returns the state left behind and either `ok` or the
propagating panic. -/
def really_init {T : Type} (f : Initializer T) :
    InitState T (Initializer T) × Except Panic Unit :=
  match f () with
  | .error p => (really_init_mid T, .error p)
  | .ok data => (.Init data, .ok ())

/-- `LazyMut::force_mut` from src/lib.rs: under the adapter lock, match on the state
(`Init` falls through, `Uninit` runs `really_init`, `Poisoned` calls
`lazy_mut_poisoned_init`), then take a poison token and wrap it into a guard.
Returns the new cell and either the poison result carrying the guard or the panic. -/
def LazyMut.force_mut {T : Type} (c : LazyMut T) (panicking : Bool) :
    LazyMut T × Except Panic (PoisonLockResult LazyMutGuard) :=
  match c.state with
  | .Init _ =>
      (c, .ok (map_result (c.poison_flag.guard panicking) LazyMutGuard.mk))
  | .Uninit f =>
      match really_init f with
      | (newState, .ok ()) =>
          ({ c with state := newState },
            .ok (map_result (c.poison_flag.guard panicking) LazyMutGuard.mk))
      | (newState, .error p) => ({ c with state := newState }, .error p)
  | .Poisoned => (c, .error lazy_mut_poisoned_init_msg)

/-- Panic message of `Result::unwrap` on an `Err` value. -/
def unwrap_failed_msg : Panic := "called Result::unwrap on an Err value"

/-- `LazyMut::get_mut`: `self.force_mut().unwrap()`. -/
def LazyMut.get_mut {T : Type} (c : LazyMut T) (panicking : Bool) :
    LazyMut T × Except Panic LazyMutGuard :=
  match c.force_mut panicking with
  | (c2, .ok (.ok g)) => (c2, .ok g)
  | (c2, .ok (.err _)) => (c2, .error unwrap_failed_msg)
  | (c2, .error p) => (c2, .error p)

/-- `LazyMut::try_get_mut`: `self.force_mut()`, exposing the poison result. -/
def LazyMut.try_get_mut {T : Type} (c : LazyMut T) (panicking : Bool) :
    LazyMut T × Except Panic (PoisonLockResult LazyMutGuard) :=
  c.force_mut panicking

/-- `LazyMut::into_inner`: consumes the cell, `Ok(data)` when `Init`, `Err(f)` when
`Uninit`, panic when `Poisoned`.  `Sum.inl` is the `Ok` branch, `Sum.inr` the `Err`
branch of the returned `Result<T, F>`. -/
def LazyMut.into_inner {T : Type} (c : LazyMut T) :
    Except Panic (T ⊕ Initializer T) :=
  match c.state with
  | .Init data => .ok (.inl data)
  | .Uninit f => .ok (.inr f)
  | .Poisoned => .error lazy_mut_poisoned_init_msg

/-- `LazyMut::is_poisoned`: state is `Poisoned` or the flag is set. -/
def LazyMut.is_poisoned {T : Type} (c : LazyMut T) : Bool :=
  (match c.state with | .Poisoned => true | _ => false) || c.poison_flag.get

/-- `LazyMut::clear_mutex_poison`: `self.poison_flag.clear()`. -/
def LazyMut.clear_mutex_poison {T : Type} (c : LazyMut T) : LazyMut T :=
  { c with poison_flag := c.poison_flag.clear }

/-- `Drop for LazyMutGuard` from src/lib.rs: the entire body is
`self.lazy.poison_flag.done(self.poison_guard)`. -/
def LazyMut.guard_drop {T : Type} (c : LazyMut T) (g : LazyMutGuard)
    (nowPanicking : Bool) : LazyMut T :=
  { c with poison_flag := c.poison_flag.done g.poison_guard nowPanicking }

/-- `Deref`/`DerefMut` for `LazyMutGuard`: reads the `Init` payload of the cell the
guard borrows; `none` models the `unreachable_unchecked` branch. -/
def LazyMutGuard.deref {T : Type} (c : LazyMut T) : Option T :=
  match c.state with
  | .Init data => some data
  | _ => none

/-- Constructor tag of the cell state. -/
inductive StateTag where
  | uninit
  | init
  | poisoned
deriving DecidableEq

/-- Tag of the state of a cell. -/
def LazyMut.tag {T : Type} (c : LazyMut T) : StateTag :=
  match c.state with
  | .Uninit _ => .uninit
  | .Init _ => .init
  | .Poisoned => .poisoned

/-- Operations a holder of a shared reference to the cell can run; used to state
preservation of the `InitState` across every operation. -/
inductive Op (T : Type) where
  | forceAccess (panicking : Bool)
  | clearPoison
  | queryPoisoned
  | dropGuard (g : LazyMutGuard) (nowPanicking : Bool)

/-- Effect of one operation on the cell (`is_poisoned` only reads). -/
def LazyMut.step {T : Type} (c : LazyMut T) : Op T → LazyMut T
  | .forceAccess p => (c.force_mut p).1
  | .clearPoison => c.clear_mutex_poison
  | .queryPoisoned => c
  | .dropGuard g now => c.guard_drop g now

/-- Atomic adapter-lock and poison-flag events, for the ordering claims. -/
inductive Event where
  | lockBlocking
  | tryAcquire
  | runInit
  | panicked
  | poisonGuardTaken
  | adapterUnlock
  | poisonDone
deriving DecidableEq

/-- Events of `LazyMut::force_mut` in source order, by state tag and by whether the
initializer panics.  `lockBlocking` is `self.state.lock()` (a blocking acquire).
The trailing `adapterUnlock` is the implicit drop of the local `lock` guard when
`force_mut` returns or unwinds: `lock_api::MutexGuard::drop` calls `M::unlock`. -/
def forceMutTrace (tag : StateTag) (initPanics : Bool) : List Event :=
  match tag with
  | .init => [.lockBlocking, .poisonGuardTaken, .adapterUnlock]
  | .uninit =>
      if initPanics then [.lockBlocking, .runInit, .panicked, .adapterUnlock]
      else [.lockBlocking, .runInit, .poisonGuardTaken, .adapterUnlock]
  | .poisoned => [.lockBlocking, .panicked, .adapterUnlock]

/-- Events of `LazyMut::get_mut`: `force_mut().unwrap()`; `unwrap` touches neither
the adapter lock nor the flag. -/
def getMutTrace (tag : StateTag) (initPanics : Bool) : List Event :=
  forceMutTrace tag initPanics

/-- Events of `LazyMut::try_get_mut`: the body is exactly `self.force_mut()`. -/
def tryGetMutTrace (tag : StateTag) (initPanics : Bool) : List Event :=
  forceMutTrace tag initPanics

/-- Events of `Drop for LazyMutGuard`: only `poison_flag.done(token)`; the drop body
contains no unlock of the adapter mutex. -/
def guardDropTrace : List Event := [Event.poisonDone]

/-- Events from the start of a successful `force_mut` call to the destruction of the
guard it returned. -/
def guardLifetimeTrace (tag : StateTag) (initPanics : Bool) : List Event :=
  forceMutTrace tag initPanics ++ guardDropTrace

/-- `RawStdMutex` from src/std_lock.rs: a `OnceLock<Pin<Box<Inner>>>`.  `none` means
the fill-once cell was never initialized (no acquisition has ever occurred); `some
held` is an allocated `Inner` whose `std::sync::Mutex` is currently held iff `held`
(the saved guard slot is occupied exactly when `held`). -/
structure RawStdMutex where
  inner : Option Bool
deriving DecidableEq

/-- `RawStdMutex::INIT`: an empty `OnceLock`. -/
def RawStdMutex.INIT : RawStdMutex := ⟨none⟩

/-- `std::sync::Mutex::try_lock` on the inner mutex: `none` is `Err(WouldBlock)`;
`some held2` is `Ok(guard)` with the mutex now held. -/
def innerTryLock (held : Bool) : Option Bool :=
  if held then none else some true

/-- Dropping a `std::sync::MutexGuard` of the inner mutex releases it. -/
def innerGuardDrop (_held : Bool) : Bool := false

/-- `RawStdMutex::try_lock`: `get_or_init(init_inner_mutex)` (an uninitialized cell
becomes a fresh, unlocked mutex), then `try_lock`; on `Ok` the guard is saved
(`save_guard`) and `true` is returned, on `WouldBlock` returns `false`. -/
def RawStdMutex.try_lock (m : RawStdMutex) : Bool × RawStdMutex :=
  match innerTryLock (m.inner.getD false) with
  | some heldNow => (true, ⟨some heldNow⟩)
  | none => (false, ⟨m.inner.getD false⟩)

/-- `RawStdMutex::lock`: `get_or_init`, then the blocking `lock`; in the sequential
model it completes only from a free mutex (`none` models blocking forever on a held
one); on completion the guard is saved. -/
def RawStdMutex.lock (m : RawStdMutex) : Option RawStdMutex :=
  if m.inner.getD false then none else some ⟨some true⟩

/-- `RawStdMutex::unlock` (precondition: a prior acquisition is unmatched, so the
cell is initialized and the saved guard occupied): drops the saved guard in place,
releasing the inner mutex. -/
def RawStdMutex.unlock (m : RawStdMutex) : RawStdMutex :=
  ⟨m.inner.map innerGuardDrop⟩

/-- `RawStdMutex::is_locked` from src/std_lock.rs: when the `OnceLock` is empty,
returns `false` without touching anything; otherwise `try_lock` on the inner mutex:
`Ok(g)` means not locked (the temporary guard `g` is dropped at once, restoring the
mutex), `WouldBlock` means locked.  Returns the answer and the mutex afterwards. -/
def RawStdMutex.is_locked (m : RawStdMutex) : Bool × RawStdMutex :=
  match m.inner with
  | none => (false, m)
  | some held =>
      match innerTryLock held with
      | some heldNow => (false, ⟨some (innerGuardDrop heldNow)⟩)
      | none => (true, ⟨some held⟩)

/-- `LazyMut::into_inner` consumes the cell through `Mutex::into_inner`, which takes
the mutex by value: it performs no adapter-lock or poison-flag events. -/
def intoInnerTrace : List Event := []

/-- Helper: every operation preserves an `Init` state, value included. -/
theorem LazyMut.step_preserves_Init {T : Type} (c : LazyMut T) (op : Op T) (v : T)
    (h : c.state = .Init v) : (c.step op).state = .Init v := by
  cases op with
  | forceAccess p =>
      simp [LazyMut.step, LazyMut.force_mut, h]
  | clearPoison => simpa [LazyMut.step, LazyMut.clear_mutex_poison] using h
  | queryPoisoned => simpa [LazyMut.step] using h
  | dropGuard g now => simpa [LazyMut.step, LazyMut.guard_drop] using h

/-- Helper: every operation preserves a `Poisoned` state. -/
theorem LazyMut.step_preserves_Poisoned {T : Type} (c : LazyMut T) (op : Op T)
    (h : c.state = .Poisoned) : (c.step op).state = .Poisoned := by
  cases op with
  | forceAccess p =>
      simp [LazyMut.step, LazyMut.force_mut, h]
  | clearPoison => simpa [LazyMut.step, LazyMut.clear_mutex_poison] using h
  | queryPoisoned => simpa [LazyMut.step] using h
  | dropGuard g now => simpa [LazyMut.step, LazyMut.guard_drop] using h

/-- Helper: a whole sequence of operations preserves an `Init` state. -/
theorem LazyMut.steps_preserve_Init {T : Type} (ops : List (Op T)) (c : LazyMut T)
    (v : T) (h : c.state = .Init v) :
    (ops.foldl LazyMut.step c).state = .Init v := by
  induction ops generalizing c with
  | nil => exact h
  | cons op rest ih =>
      exact ih _ (LazyMut.step_preserves_Init c op v h)

/-- Claim C3: when `force_access` finds the state `Uninit`, the transition runs in
two sub-steps — first the initializer is removed and the state replaced with the
transient `Poisoned` (`really_init_mid`), then, only when the initializer returns
normally, the state is overwritten with `Init(value)`; hence an initializer that
panics leaves the state durably `Poisoned` and the panic propagates to the caller
of `force_mut`. -/
theorem c3_initializer_panic_leaves_poisoned {T : Type} (f : Initializer T)
    (p : Panic) (fl : poison.Flag) (pan : Bool) (h : f () = .error p) :
    really_init f = (really_init_mid T, .error p) ∧
    really_init_mid T = (InitState.Poisoned : InitState T (Initializer T)) ∧
    LazyMut.force_mut ⟨.Uninit f, fl⟩ pan = (⟨.Poisoned, fl⟩, .error p) := by
  refine ⟨by simp [really_init, h], rfl, ?_⟩
  simp [LazyMut.force_mut, really_init, really_init_mid, h]

/-- Witness for C3 at the concrete initializer that panics with payload boom. -/
theorem c3_witness :
    really_init (fun _ => (.error "boom" : Except Panic Nat)) =
      (really_init_mid Nat, .error "boom") ∧
    really_init_mid Nat = (InitState.Poisoned : InitState Nat (Initializer Nat)) ∧
    LazyMut.force_mut ⟨.Uninit (fun _ => (.error "boom" : Except Panic Nat)), ⟨false⟩⟩ false =
      (⟨.Poisoned, ⟨false⟩⟩, .error "boom") :=
  c3_initializer_panic_leaves_poisoned (fun _ => .error "boom") "boom" ⟨false⟩ false rfl

/-- Claim C4: on a `Poisoned` cell, `force_mut` — and with it `get_mut` and
`try_get_mut` — panics at once with the poisoned-during-initialization message,
leaves the cell untouched, and its trace contains no run of the initializer. -/
theorem c4_poisoned_access_panics_without_init {T : Type} (fl : poison.Flag)
    (pan ip : Bool) :
    LazyMut.force_mut (⟨.Poisoned, fl⟩ : LazyMut T) pan =
      (⟨.Poisoned, fl⟩, .error lazy_mut_poisoned_init_msg) ∧
    LazyMut.get_mut (⟨.Poisoned, fl⟩ : LazyMut T) pan =
      (⟨.Poisoned, fl⟩, .error lazy_mut_poisoned_init_msg) ∧
    LazyMut.try_get_mut (⟨.Poisoned, fl⟩ : LazyMut T) pan =
      (⟨.Poisoned, fl⟩, .error lazy_mut_poisoned_init_msg) ∧
    (⟨.Poisoned, fl⟩ : LazyMut T).tag = .poisoned ∧
    Event.runInit ∉ forceMutTrace StateTag.poisoned ip := by
  refine ⟨rfl, ?_, rfl, rfl, by cases ip <;> decide⟩
  simp [LazyMut.get_mut, LazyMut.force_mut]

/-- Claim C5: state transitions are one way — an `Init v` state survives every
operation unchanged, a `Poisoned` state survives every operation (also
`clear_mutex_poison`), and from `Uninit f` one operation can only keep `Uninit f`
or move to some `Init` or to `Poisoned`. -/
theorem c5_transitions_one_way {T : Type} (c : LazyMut T) (op : Op T) :
    (∀ v, c.state = .Init v → (c.step op).state = .Init v) ∧
    (c.state = .Poisoned → (c.step op).state = .Poisoned) ∧
    (∀ f, c.state = .Uninit f →
      (c.step op).state = .Uninit f ∨ (∃ v, (c.step op).state = .Init v) ∨
        (c.step op).state = .Poisoned) := by
  refine ⟨fun v h => LazyMut.step_preserves_Init c op v h,
    fun h => LazyMut.step_preserves_Poisoned c op h, fun f h => ?_⟩
  cases op with
  | forceAccess p =>
      cases hf : f () with
      | ok d =>
          refine Or.inr (Or.inl ⟨d, ?_⟩)
          simp [LazyMut.step, LazyMut.force_mut, h, really_init, hf]
      | error q =>
          refine Or.inr (Or.inr ?_)
          simp [LazyMut.step, LazyMut.force_mut, h, really_init, really_init_mid, hf]
  | clearPoison => exact Or.inl (by simpa [LazyMut.step, LazyMut.clear_mutex_poison] using h)
  | queryPoisoned => exact Or.inl (by simpa [LazyMut.step] using h)
  | dropGuard g now => exact Or.inl (by simpa [LazyMut.step, LazyMut.guard_drop] using h)

/-- Witness for C5 at concrete cells and operations. -/
theorem c5_witness :
    ((⟨.Init 3, ⟨false⟩⟩ : LazyMut Nat).step .clearPoison).state = .Init 3 ∧
    ((⟨.Poisoned, ⟨false⟩⟩ : LazyMut Nat).step (.forceAccess false)).state = .Poisoned ∧
    (((⟨.Uninit (fun _ => .ok 5), ⟨false⟩⟩ : LazyMut Nat).step .queryPoisoned).state =
        .Uninit (fun _ => .ok 5) ∨
      (∃ v, ((⟨.Uninit (fun _ => .ok 5), ⟨false⟩⟩ : LazyMut Nat).step .queryPoisoned).state =
        .Init v) ∨
      ((⟨.Uninit (fun _ => .ok 5), ⟨false⟩⟩ : LazyMut Nat).step .queryPoisoned).state =
        .Poisoned) :=
  ⟨(c5_transitions_one_way ⟨.Init 3, ⟨false⟩⟩ .clearPoison).1 3 rfl,
   (c5_transitions_one_way ⟨.Poisoned, ⟨false⟩⟩ (.forceAccess false)).2.1 rfl,
   (c5_transitions_one_way ⟨.Uninit (fun _ => .ok 5), ⟨false⟩⟩ .queryPoisoned).2.2
     (fun _ => .ok 5) rfl⟩

/-- Claim C1 (evaluation of the code at a failing input): starting a `force_mut`
call on an already-`Init` cell and dropping the guard it returns, the implicit drop
of the local mutex guard releases the adapter lock while `force_mut` is still
returning, so the unlock event sits inside the `force_mut` trace, before the
`poison_flag.done` event, and the guard-drop trace contains no unlock at all. -/
theorem c1_unlock_inside_force_mut_not_at_guard_drop :
    guardLifetimeTrace .init false =
      [Event.lockBlocking, Event.poisonGuardTaken, Event.adapterUnlock,
        Event.poisonDone] ∧
    Event.adapterUnlock ∈ forceMutTrace .init false ∧
    Event.adapterUnlock ∉ guardDropTrace := by decide

/-- Claim C2 (counterexample): the claim says `try_get_mut` never performs a
blocking acquire, but its trace — the trace of `force_mut` — contains the blocking
`self.state.lock()` and no non-blocking acquire. -/
theorem c2_counterexample_blocking_acquire :
    Event.lockBlocking ∈ tryGetMutTrace .init false ∧
    Event.tryAcquire ∉ tryGetMutTrace .init false := by decide

/-- Claim C2 (amended): `try_get_mut` performs exactly the same, blocking,
acquisition of the adapter lock as `get_mut`; it never performs a non-blocking
acquire; the try refers only to the poison flag: on a flagged cell it returns the
guard wrapped in the poison error where `get_mut` panics. -/
theorem c2_amended_try_is_poison_fallible_not_nonblocking {T : Type}
    (tag : StateTag) (ip : Bool) (v : T) (pan : Bool) :
    tryGetMutTrace tag ip = getMutTrace tag ip ∧
    Event.lockBlocking ∈ tryGetMutTrace tag ip ∧
    Event.tryAcquire ∉ tryGetMutTrace tag ip ∧
    (LazyMut.try_get_mut (⟨.Init v, ⟨true⟩⟩ : LazyMut T) pan).2 = .ok (.err ⟨⟨pan⟩⟩) ∧
    (LazyMut.get_mut (⟨.Init v, ⟨true⟩⟩ : LazyMut T) pan).2 = .error unwrap_failed_msg := by
  refine ⟨rfl, ?_, ?_, ?_, ?_⟩
  · cases tag <;> cases ip <;> decide
  · cases tag <;> cases ip <;> decide
  · simp [LazyMut.try_get_mut, LazyMut.force_mut, poison.Flag.guard, poison.Flag.get,
      map_result]
  · simp [LazyMut.get_mut, LazyMut.force_mut, poison.Flag.guard, poison.Flag.get,
      map_result]

/-- Claim C6: `into_inner` returns the stored value when `Init`, the original
initializer unmodified when `Uninit`, panics when `Poisoned`, performs no lock
events, and on a cell forced once with an initializer producing `v` returns `v`. -/
theorem c6_into_inner_by_state {T : Type} (f : Initializer T) (v d : T)
    (fl : poison.Flag) (pan : Bool) (h : f () = .ok v) :
    LazyMut.into_inner (LazyMut.new f) = .ok (.inr f) ∧
    LazyMut.into_inner (⟨.Init d, fl⟩ : LazyMut T) = .ok (.inl d) ∧
    LazyMut.into_inner (⟨.Poisoned, fl⟩ : LazyMut T) =
      .error lazy_mut_poisoned_init_msg ∧
    intoInnerTrace = [] ∧
    LazyMut.into_inner ((LazyMut.new f).force_mut pan).1 = .ok (.inl v) := by
  refine ⟨rfl, rfl, rfl, rfl, ?_⟩
  simp [LazyMut.new, LazyMut.force_mut, really_init, h, LazyMut.into_inner]

/-- Witness for C6 at the concrete initializer producing 7. -/
theorem c6_witness :
    LazyMut.into_inner (LazyMut.new (fun _ => (.ok 7 : Except Panic Nat))) =
      .ok (.inr (fun _ => .ok 7)) ∧
    LazyMut.into_inner (⟨.Init 4, ⟨false⟩⟩ : LazyMut Nat) = .ok (.inl 4) ∧
    LazyMut.into_inner (⟨.Poisoned, ⟨false⟩⟩ : LazyMut Nat) =
      .error lazy_mut_poisoned_init_msg ∧
    intoInnerTrace = [] ∧
    LazyMut.into_inner
      ((LazyMut.new (fun _ => (.ok 7 : Except Panic Nat))).force_mut false).1 =
      .ok (.inl 7) :=
  c6_into_inner_by_state (fun _ => .ok 7) 7 4 ⟨false⟩ false rfl

/-- Claim C7: `clear_mutex_poison` clears only the poison flag and never the
state; a `Poisoned` cell still panics on every access after clearing, while after
a guard-holder panic (flag set through `done`) the next fallible access observes
the poison error before clearing and a clean `Ok` guard after clearing. -/
theorem c7_clear_poison_only_clears_flag {T : Type} (c : LazyMut T) (v : T)
    (fl : poison.Flag) (pan : Bool) :
    (c.clear_mutex_poison).state = c.state ∧
    (c.clear_mutex_poison).poison_flag.failed = false ∧
    LazyMut.try_get_mut ((⟨.Poisoned, fl⟩ : LazyMut T).clear_mutex_poison) pan =
      (⟨.Poisoned, poison.Flag.new⟩, .error lazy_mut_poisoned_init_msg) ∧
    LazyMut.get_mut ((⟨.Poisoned, fl⟩ : LazyMut T).clear_mutex_poison) pan =
      (⟨.Poisoned, poison.Flag.new⟩, .error lazy_mut_poisoned_init_msg) ∧
    ((LazyMut.try_get_mut
        (LazyMut.guard_drop (⟨.Init v, poison.Flag.new⟩ : LazyMut T) ⟨⟨false⟩⟩ true)
        pan).2 = .ok (.err ⟨⟨pan⟩⟩) ∧
      (LazyMut.try_get_mut
        ((LazyMut.guard_drop (⟨.Init v, poison.Flag.new⟩ : LazyMut T) ⟨⟨false⟩⟩
          true).clear_mutex_poison) pan).2 = .ok (.ok ⟨⟨pan⟩⟩)) := by
  refine ⟨rfl, rfl, ?_, ?_, ?_, ?_⟩
  · simp [LazyMut.try_get_mut, LazyMut.clear_mutex_poison, LazyMut.force_mut,
      poison.Flag.clear, poison.Flag.new]
  · simp [LazyMut.get_mut, LazyMut.clear_mutex_poison, LazyMut.force_mut,
      poison.Flag.clear, poison.Flag.new]
  · simp [LazyMut.try_get_mut, LazyMut.guard_drop, poison.Flag.done, poison.Flag.new,
      LazyMut.force_mut, poison.Flag.guard, poison.Flag.get, map_result]
  · simp [LazyMut.try_get_mut, LazyMut.guard_drop, poison.Flag.done, poison.Flag.new,
      LazyMut.clear_mutex_poison, poison.Flag.clear, LazyMut.force_mut,
      poison.Flag.guard, poison.Flag.get, map_result]

/-- Claim C8: `Flag::guard` hands back a token that records whether the thread was
panicking, as `Ok` exactly when the flag is unset and as a poison error still
carrying the token exactly when it is set; `Flag::done` leaves the flag set exactly
when it was already set or the thread is panicking now but was not when the token
was taken. -/
theorem c8_poison_flag_guard_and_done (fl : poison.Flag) (pan : Bool)
    (g : poison.Guard) (now : Bool) :
    (fl.guard pan = .ok ⟨pan⟩ ↔ fl.failed = false) ∧
    (fl.guard pan = .err ⟨pan⟩ ↔ fl.failed = true) ∧
    (fl.done g now).failed = (fl.failed || (!g.panicking && now)) := by
  rcases fl with ⟨b⟩
  rcases g with ⟨gp⟩
  cases b <;> cases gp <;> cases pan <;> cases now <;> decide

/-- Claim C9: `RawStdMutex::is_locked` answers `false` on an instance on which no
acquisition has ever occurred (empty fill-once cell), otherwise answers `true`
exactly when the non-blocking probe of the inner mutex would fail because the lock
is currently held, and in every case leaves the mutex exactly as it found it — the
probe establishes no lasting hold. -/
theorem c9_is_locked_nonblocking_probe (m : RawStdMutex) :
    RawStdMutex.is_locked RawStdMutex.INIT = (false, RawStdMutex.INIT) ∧
    (m.is_locked).2 = m ∧
    ((m.is_locked).1 = true ↔ m.inner = some true) := by
  rcases m with ⟨inner⟩
  rcases inner with _ | b
  · exact ⟨rfl, rfl, by decide⟩
  · cases b <;> exact ⟨rfl, rfl, by decide⟩

/-- Claim C10: whenever `force_mut` hands back a guard (plain or wrapped in the
poison error), the cell it leaves behind is in some `Init v` state, it stays `Init
v` under any further sequence of operations, and the guard dereference always finds
`some v` — the `unreachable_unchecked` branch (`none`) is never taken. -/
theorem c10_live_guard_state_is_init {T : Type} (c : LazyMut T) (pan : Bool)
    (r : PoisonLockResult LazyMutGuard) (h : (c.force_mut pan).2 = .ok r) :
    ∃ v, (c.force_mut pan).1.state = .Init v ∧
      ∀ ops : List (Op T),
        (ops.foldl LazyMut.step (c.force_mut pan).1).state = .Init v ∧
        LazyMutGuard.deref (ops.foldl LazyMut.step (c.force_mut pan).1) = some v := by
  rcases hc : c.state with f | v | _
  · cases hf : f () with
    | ok d =>
        refine ⟨d, ?_⟩
        have hstate : (c.force_mut pan).1.state = .Init d := by
          simp [LazyMut.force_mut, hc, really_init, hf]
        refine ⟨hstate, fun ops => ?_⟩
        have hkeep := LazyMut.steps_preserve_Init ops (c.force_mut pan).1 d hstate
        exact ⟨hkeep, by simp [LazyMutGuard.deref, hkeep]⟩
    | error q =>
        exfalso
        simp [LazyMut.force_mut, hc, really_init, hf] at h
  · refine ⟨v, ?_⟩
    have hstate : (c.force_mut pan).1.state = .Init v := by
      simp [LazyMut.force_mut, hc]
    refine ⟨hstate, fun ops => ?_⟩
    have hkeep := LazyMut.steps_preserve_Init ops (c.force_mut pan).1 v hstate
    exact ⟨hkeep, by simp [LazyMutGuard.deref, hkeep]⟩
  · exfalso
    simp [LazyMut.force_mut, hc] at h

/-- Witness for C10 at a concrete already initialized cell. -/
theorem c10_witness :
    ((⟨.Init 3, ⟨false⟩⟩ : LazyMut Nat).force_mut false).2 = .ok (.ok ⟨⟨false⟩⟩) ∧
    (∃ v, ((⟨.Init 3, ⟨false⟩⟩ : LazyMut Nat).force_mut false).1.state = .Init v ∧
      ∀ ops : List (Op Nat),
        (ops.foldl LazyMut.step
          ((⟨.Init 3, ⟨false⟩⟩ : LazyMut Nat).force_mut false).1).state = .Init v ∧
        LazyMutGuard.deref (ops.foldl LazyMut.step
          ((⟨.Init 3, ⟨false⟩⟩ : LazyMut Nat).force_mut false).1) = some v) :=
  ⟨rfl, c10_live_guard_state_is_init ⟨.Init 3, ⟨false⟩⟩ false (.ok ⟨⟨false⟩⟩) rfl⟩
